import Mathlib

/-!
Modelo en Lean 4 del programa EjercicioPractico3.py.

Un hilo secundario (contar_errores_en_fichero) lee un fichero linea a
linea y cuenta las que contienen una palabra clave; al terminar escribe
el total en la variable global contador_errores bajo el semaforo binario
semaforo, y en el bloque finally pone hilo_terminado a True. El hilo
principal (main) genera el fichero, lanza el hilo y atiende un menu; la
opcion 3 lee el estado bajo el semaforo, la opcion 5 comprueba
hilo_terminado, hace join si hace falta y muestra el resultado final
leyendo contador_errores bajo el semaforo.

El modelo: funciones puras para el recuento y la generacion del fichero,
y un sistema de transiciones de paso corto que entrelaza los dos hilos,
con etiquetas que registran cada acceso a las variables compartidas.
-/

namespace EjercicioPractico3

/-- Nucleo del operador in de Python sobre cadenas: la lista kw es
prefijo de la otra lista de caracteres. -/
def esPrefijo : List Char → List Char → Bool
  | [], _ => true
  | _ :: _, [] => false
  | a :: as, b :: bs => a == b && esPrefijo as bs

/-- La lista kw aparece como sublista contigua (subcadena). -/
def apareceEn (kw : List Char) : List Char → Bool
  | [] => esPrefijo kw []
  | c :: resto => esPrefijo kw (c :: resto) || apareceEn kw resto

/-- El test palabra_clave in linea de la linea 93 del fuente: subcadena
sensible a mayusculas y minusculas. -/
def contiene (kw linea : String) : Bool :=
  apareceEn kw.data linea.data

/-- Recuento ingenuo e independiente: numero de lineas de la lista que
contienen la palabra clave. -/
def cuentaLineas (kw : String) (ls : List String) : Nat :=
  (ls.filter (fun l => contiene kw l)).length

theorem cuentaLineas_nil (kw : String) : cuentaLineas kw [] = 0 := rfl

theorem cuentaLineas_cons (kw l : String) (ls : List String) :
    cuentaLineas kw (l :: ls) =
      (if contiene kw l then 1 else 0) + cuentaLineas kw ls := by
  by_cases h : contiene kw l
  · simp [cuentaLineas, List.filter_cons, h, Nat.add_comm]
  · simp [cuentaLineas, List.filter_cons, h]

theorem cuentaLineas_sin_palabra (kw : String) (ls : List String)
    (h : ∀ l ∈ ls, contiene kw l = false) : cuentaLineas kw ls = 0 := by
  induction ls with
  | nil => rfl
  | cons l resto ih =>
      rw [cuentaLineas_cons, h l (List.mem_cons_self l resto),
        ih (fun x hx => h x (List.mem_cons_of_mem l hx))]
      simp

/-- Lista de mensajes de registro posibles de generar_fichero_grande
(lineas 37 a 48 del fuente). -/
def mensajes_posibles : List String :=
  ["INFO: Sistema iniciado correctamente",
   "ERROR: No se pudo conectar a la base de datos",
   "WARNING: Memoria baja disponible",
   "ERROR: Timeout en la peticion",
   "INFO: Usuario autenticado",
   "DEBUG: Procesando solicitud",
   "ERROR: Archivo no encontrado",
   "INFO: Operacion completada con exito",
   "WARNING: Certificado SSL proximo a expirar",
   "ERROR: Permiso denegado"]

/-- Contenido del fichero que escribe generar_fichero_grande (lineas 51 a
55 del fuente): num_lineas lineas, cada una con su numero y un mensaje
elegido al azar; random.choice se modela con la funcion eleccion. -/
def generar_fichero_grande (eleccion : Nat → Fin mensajes_posibles.length)
    (num_lineas : Nat) : List String :=
  (List.range num_lineas).map
    (fun i => "[" ++ toString (i + 1) ++ "] " ++
      mensajes_posibles.get (eleccion i) ++ "\x0a")

theorem generar_longitud (eleccion : Nat → Fin mensajes_posibles.length)
    (num_lineas : Nat) :
    (generar_fichero_grande eleccion num_lineas).length = num_lineas := by
  simp [generar_fichero_grande]

theorem generar_termina_en_salto
    (eleccion : Nat → Fin mensajes_posibles.length) (num_lineas : Nat) :
    ∀ l ∈ generar_fichero_grande eleccion num_lineas,
      ∃ p, l = p ++ "\x0a" := by
  intro l hl
  simp only [generar_fichero_grande, List.mem_map] at hl
  obtain ⟨i, _, hi⟩ := hl
  exact ⟨_, hi.symm⟩

/-- Los dos hilos del programa: el secundario (contar_errores_en_fichero)
y el principal (main). -/
inductive Quien where
  | hilo
  | principal
deriving DecidableEq

/-- Las dos variables globales compartidas del programa. -/
inductive Var where
  | contador
  | bandera
deriving DecidableEq

/-- Un acceso observado a una variable compartida. -/
structure Obs where
  var : Var
  escritura : Bool
deriving DecidableEq

/-- Etiqueta de un paso: que hilo actua y que accesos realiza. -/
structure Etiqueta where
  quien : Quien
  obs : List Obs
deriving DecidableEq

/-- Contador de programa del hilo secundario (contar_errores_en_fichero,
lineas 62 a 122). escaneo lleva las lineas restantes y contador_local;
escribe y libera son la seccion critica de las lineas 104 a 111;
marcaFin es la linea 122 (bloque finally); falloMarca es la rama except
de las lineas 116 a 118 seguida del mismo finally. -/
inductive PCHilo where
  | inicio
  | escaneo (restantes : List String) (contador_local : Nat)
  | adquiere (contador_local : Nat)
  | escribe (contador_local : Nat)
  | libera
  | marcaFin
  | falloMarca
  | fin
deriving DecidableEq

/-- Contador de programa del hilo principal (main, lineas 231 a 274).
menu lleva las opciones pendientes del usuario; estadoLee y estadoLibera
son mostrar_estado_contador (lineas 164 a 173); espera es hilo.join()
(linea 251); reporteLee y reporteLibera son el resultado final (lineas
267 a 271); fin lleva el valor mostrado en el informe final. -/
inductive PCCtrl where
  | menu (opciones : List String)
  | estadoLee (opciones : List String)
  | estadoLibera (opciones : List String)
  | espera
  | reporteAdquiere
  | reporteLee
  | reporteLibera (r : Nat)
  | fin (r : Nat)
deriving DecidableEq

/-- Estado global: las dos variables compartidas, el dueno actual del
semaforo binario (none si esta libre) y los contadores de programa. -/
structure Estado where
  contador_errores : Nat
  hilo_terminado : Bool
  dueno : Option Quien
  pcH : PCHilo
  pcC : PCCtrl
deriving DecidableEq

/-- Estado inicial: contador_errores = 0, hilo_terminado = False,
semaforo libre (lineas 14 a 21), hilo en su inicio y menu con la lista
de opciones que tecleara el usuario. -/
def inicial (opciones : List String) : Estado :=
  ⟨0, false, none, PCHilo.inicio, PCCtrl.menu opciones⟩

/-- Opciones que main reconoce (lineas 236 a 252). -/
def opcionValida (op : String) : Bool :=
  op == "1" || op == "2" || op == "3" || op == "4" || op == "5"

/-- Relacion de paso corto del sistema con los dos hilos entrelazados.
El parametro A es el contenido del fichero (none si open falla) y kw la
palabra clave. Cada constructor es una accion atomica de un hilo; la
etiqueta registra los accesos a contador_errores y hilo_terminado. -/
inductive Paso (A : Option (List String)) (kw : String) :
    Estado → Etiqueta → Estado → Prop where
  /-- Linea 81: open tiene exito y readlines entrega las lineas. -/
  | abreOk (c : Nat) (f : Bool) (d : Option Quien) (pc : PCCtrl)
      (ls : List String) (hA : A = some ls) :
      Paso A kw ⟨c, f, d, PCHilo.inicio, pc⟩ ⟨Quien.hilo, []⟩
        ⟨c, f, d, PCHilo.escaneo ls 0, pc⟩
  /-- Lineas 116 a 118: open lanza una excepcion; se imprime el error. -/
  | abreFalla (c : Nat) (f : Bool) (d : Option Quien) (pc : PCCtrl)
      (hA : A = none) :
      Paso A kw ⟨c, f, d, PCHilo.inicio, pc⟩ ⟨Quien.hilo, []⟩
        ⟨c, f, d, PCHilo.falloMarca, pc⟩
  /-- Lineas 87 a 98: procesa una linea; solo toca contador_local. -/
  | escaneaLinea (c : Nat) (f : Bool) (d : Option Quien) (pc : PCCtrl)
      (l : String) (ls : List String) (n : Nat) :
      Paso A kw ⟨c, f, d, PCHilo.escaneo (l :: ls) n, pc⟩ ⟨Quien.hilo, []⟩
        ⟨c, f, d, PCHilo.escaneo ls (if contiene kw l then n + 1 else n), pc⟩
  /-- El bucle de escaneo termina al agotarse las lineas. -/
  | escaneoFin (c : Nat) (f : Bool) (d : Option Quien) (pc : PCCtrl)
      (n : Nat) :
      Paso A kw ⟨c, f, d, PCHilo.escaneo [] n, pc⟩ ⟨Quien.hilo, []⟩
        ⟨c, f, d, PCHilo.adquiere n, pc⟩
  /-- Linea 104: semaforo.acquire() del hilo; exige el semaforo libre. -/
  | hAdquiere (c : Nat) (f : Bool) (pc : PCCtrl) (n : Nat) :
      Paso A kw ⟨c, f, none, PCHilo.adquiere n, pc⟩ ⟨Quien.hilo, []⟩
        ⟨c, f, some Quien.hilo, PCHilo.escribe n, pc⟩
  /-- Linea 107: contador_errores = contador_local. -/
  | hEscribe (c : Nat) (f : Bool) (d : Option Quien) (pc : PCCtrl)
      (n : Nat) :
      Paso A kw ⟨c, f, d, PCHilo.escribe n, pc⟩
        ⟨Quien.hilo, [⟨Var.contador, true⟩]⟩
        ⟨n, f, d, PCHilo.libera, pc⟩
  /-- Linea 111: semaforo.release() del hilo. -/
  | hLibera (c : Nat) (f : Bool) (d : Option Quien) (pc : PCCtrl) :
      Paso A kw ⟨c, f, d, PCHilo.libera, pc⟩ ⟨Quien.hilo, []⟩
        ⟨c, f, none, PCHilo.marcaFin, pc⟩
  /-- Linea 122: hilo_terminado = True en el finally, sin semaforo. -/
  | hMarca (c : Nat) (f : Bool) (d : Option Quien) (pc : PCCtrl) :
      Paso A kw ⟨c, f, d, PCHilo.marcaFin, pc⟩
        ⟨Quien.hilo, [⟨Var.bandera, true⟩]⟩
        ⟨c, true, d, PCHilo.fin, pc⟩
  /-- Linea 122 tras la rama except: el mismo finally pone la bandera. -/
  | hFalloMarca (c : Nat) (f : Bool) (d : Option Quien) (pc : PCCtrl) :
      Paso A kw ⟨c, f, d, PCHilo.falloMarca, pc⟩
        ⟨Quien.hilo, [⟨Var.bandera, true⟩]⟩
        ⟨c, true, d, PCHilo.fin, pc⟩
  /-- Opcion 1: mostrar_hora_actual, sin acceso a estado compartido. -/
  | cHora (c : Nat) (f : Bool) (d : Option Quien) (pcH : PCHilo)
      (ops : List String) :
      Paso A kw ⟨c, f, d, pcH, PCCtrl.menu ("1" :: ops)⟩
        ⟨Quien.principal, []⟩ ⟨c, f, d, pcH, PCCtrl.menu ops⟩
  /-- Opcion 2: mostrar_mensaje, sin acceso a estado compartido. -/
  | cMensaje (c : Nat) (f : Bool) (d : Option Quien) (pcH : PCHilo)
      (ops : List String) :
      Paso A kw ⟨c, f, d, pcH, PCCtrl.menu ("2" :: ops)⟩
        ⟨Quien.principal, []⟩ ⟨c, f, d, pcH, PCCtrl.menu ops⟩
  /-- Opcion 4: calcular_suma, sin acceso a estado compartido. -/
  | cSuma (c : Nat) (f : Bool) (d : Option Quien) (pcH : PCHilo)
      (ops : List String) :
      Paso A kw ⟨c, f, d, pcH, PCCtrl.menu ("4" :: ops)⟩
        ⟨Quien.principal, []⟩ ⟨c, f, d, pcH, PCCtrl.menu ops⟩
  /-- Lineas 253 a 254: opcion no valida, se avisa y se vuelve al menu. -/
  | cInvalida (c : Nat) (f : Bool) (d : Option Quien) (pcH : PCHilo)
      (op : String) (ops : List String) (hop : opcionValida op = false) :
      Paso A kw ⟨c, f, d, pcH, PCCtrl.menu (op :: ops)⟩
        ⟨Quien.principal, []⟩ ⟨c, f, d, pcH, PCCtrl.menu ops⟩
  /-- Linea 164: semaforo.acquire() de mostrar_estado_contador. -/
  | cEstadoEntra (c : Nat) (f : Bool) (pcH : PCHilo) (ops : List String) :
      Paso A kw ⟨c, f, none, pcH, PCCtrl.menu ("3" :: ops)⟩
        ⟨Quien.principal, []⟩
        ⟨c, f, some Quien.principal, pcH, PCCtrl.estadoLee ops⟩
  /-- Lineas 167 a 170: lee hilo_terminado y contador_errores. -/
  | cEstadoLee (c : Nat) (f : Bool) (d : Option Quien) (pcH : PCHilo)
      (ops : List String) :
      Paso A kw ⟨c, f, d, pcH, PCCtrl.estadoLee ops⟩
        ⟨Quien.principal, [⟨Var.bandera, false⟩, ⟨Var.contador, false⟩]⟩
        ⟨c, f, d, pcH, PCCtrl.estadoLibera ops⟩
  /-- Linea 173: semaforo.release() de mostrar_estado_contador. -/
  | cEstadoSale (c : Nat) (f : Bool) (d : Option Quien) (pcH : PCHilo)
      (ops : List String) :
      Paso A kw ⟨c, f, d, pcH, PCCtrl.estadoLibera ops⟩
        ⟨Quien.principal, []⟩ ⟨c, f, none, pcH, PCCtrl.menu ops⟩
  /-- Linea 248 con la bandera ya puesta: no hay join, se pasa directo
  al informe final. La lectura de hilo_terminado va sin semaforo. -/
  | cSalirListo (c : Nat) (d : Option Quien) (pcH : PCHilo)
      (ops : List String) :
      Paso A kw ⟨c, true, d, pcH, PCCtrl.menu ("5" :: ops)⟩
        ⟨Quien.principal, [⟨Var.bandera, false⟩]⟩
        ⟨c, true, d, pcH, PCCtrl.reporteAdquiere⟩
  /-- Linea 248 con la bandera aun en False: se pasa a esperar el join
  de la linea 251. La lectura de hilo_terminado va sin semaforo. -/
  | cSalirEspera (c : Nat) (d : Option Quien) (pcH : PCHilo)
      (ops : List String) :
      Paso A kw ⟨c, false, d, pcH, PCCtrl.menu ("5" :: ops)⟩
        ⟨Quien.principal, [⟨Var.bandera, false⟩]⟩
        ⟨c, false, d, pcH, PCCtrl.espera⟩
  /-- Linea 251: hilo.join() solo avanza cuando el hilo ha terminado. -/
  | cJoin (c : Nat) (f : Bool) (d : Option Quien) :
      Paso A kw ⟨c, f, d, PCHilo.fin, PCCtrl.espera⟩
        ⟨Quien.principal, []⟩ ⟨c, f, d, PCHilo.fin, PCCtrl.reporteAdquiere⟩
  /-- Linea 267: semaforo.acquire() antes del informe final. -/
  | cReporteEntra (c : Nat) (f : Bool) (pcH : PCHilo) :
      Paso A kw ⟨c, f, none, pcH, PCCtrl.reporteAdquiere⟩
        ⟨Quien.principal, []⟩
        ⟨c, f, some Quien.principal, pcH, PCCtrl.reporteLee⟩
  /-- Linea 269: lee contador_errores para el informe final. -/
  | cReporteLee (c : Nat) (f : Bool) (d : Option Quien) (pcH : PCHilo) :
      Paso A kw ⟨c, f, d, pcH, PCCtrl.reporteLee⟩
        ⟨Quien.principal, [⟨Var.contador, false⟩]⟩
        ⟨c, f, d, pcH, PCCtrl.reporteLibera c⟩
  /-- Linea 271: semaforo.release() y fin del programa. -/
  | cReporteSale (c : Nat) (f : Bool) (d : Option Quien) (pcH : PCHilo)
      (r : Nat) :
      Paso A kw ⟨c, f, d, pcH, PCCtrl.reporteLibera r⟩
        ⟨Quien.principal, []⟩ ⟨c, f, none, pcH, PCCtrl.fin r⟩

/-- Ejecucion: cierre reflexivo y transitivo de Paso acumulando las
etiquetas de los pasos dados. -/
inductive Traza (A : Option (List String)) (kw : String) :
    Estado → List Etiqueta → Estado → Prop where
  | nada (s : Estado) : Traza A kw s [] s
  | paso {s s2 s3 : Estado} {et : Etiqueta} {ets : List Etiqueta}
      (h1 : Paso A kw s et s2) (h2 : Traza A kw s2 ets s3) :
      Traza A kw s (et :: ets) s3

theorem traza_trans {A : Option (List String)} {kw : String}
    {s t u : Estado} {ets1 ets2 : List Etiqueta}
    (h1 : Traza A kw s ets1 t) (h2 : Traza A kw t ets2 u) :
    Traza A kw s (ets1 ++ ets2) u := by
  induction h1 with
  | nada s => exact h2
  | paso hp _ ih => exact Traza.paso hp (ih h2)

/-- Total correcto del escaneo: el recuento de las lineas del fichero, o
0 si el fichero no se pudo abrir. -/
def cuentaTotal (A : Option (List String)) (kw : String) : Nat :=
  match A with
  | some ls => cuentaLineas kw ls
  | none => 0

/-- Estados del hilo secundario dentro de su seccion critica (entre
acquire de la linea 104 y release de la linea 111). -/
def enCriticaH : PCHilo → Bool
  | PCHilo.escribe _ => true
  | PCHilo.libera => true
  | _ => false

/-- Estados del hilo principal dentro de alguna de sus dos secciones
criticas (lineas 164 a 173 y lineas 267 a 271). -/
def enCriticaC : PCCtrl → Bool
  | PCCtrl.estadoLee _ => true
  | PCCtrl.estadoLibera _ => true
  | PCCtrl.reporteLee => true
  | PCCtrl.reporteLibera _ => true
  | _ => false

/-- Fase del hilo secundario: 0 antes de escribir contador_errores, 1
despues de la escritura de la linea 107. -/
def faseH : PCHilo → Nat
  | PCHilo.libera => 1
  | PCHilo.marcaFin => 1
  | PCHilo.fin => 1
  | _ => 0

/-- Invariante del hilo secundario: relaciona su contador de programa
con las variables compartidas y con el recuento correcto. -/
def InvH (A : Option (List String)) (kw : String) (s : Estado) : Prop :=
  match s.pcH with
  | PCHilo.inicio => s.contador_errores = 0 ∧ s.hilo_terminado = false
  | PCHilo.escaneo resto n =>
      A.isSome = true ∧ n + cuentaLineas kw resto = cuentaTotal A kw ∧
      s.contador_errores = 0 ∧ s.hilo_terminado = false
  | PCHilo.adquiere n =>
      A.isSome = true ∧ n = cuentaTotal A kw ∧
      s.contador_errores = 0 ∧ s.hilo_terminado = false
  | PCHilo.escribe n =>
      A.isSome = true ∧ n = cuentaTotal A kw ∧
      s.contador_errores = 0 ∧ s.hilo_terminado = false
  | PCHilo.libera =>
      s.contador_errores = cuentaTotal A kw ∧ s.hilo_terminado = false
  | PCHilo.marcaFin =>
      s.contador_errores = cuentaTotal A kw ∧ s.hilo_terminado = false
  | PCHilo.falloMarca =>
      A = none ∧ s.contador_errores = 0 ∧ s.hilo_terminado = false
  | PCHilo.fin =>
      s.contador_errores = cuentaTotal A kw ∧ s.hilo_terminado = true

/-- Invariante del semaforo: su dueno es exactamente el hilo cuyo
contador de programa esta dentro de una seccion critica. -/
def InvSem (s : Estado) : Prop :=
  (s.dueno = some Quien.hilo ↔ enCriticaH s.pcH = true) ∧
  (s.dueno = some Quien.principal ↔ enCriticaC s.pcC = true)

/-- Invariante del hilo principal: una vez pasada la comprobacion de
salida (y el join si hizo falta), el hilo secundario ya ha terminado, y
el valor leido para el informe es el total correcto. -/
def InvC (A : Option (List String)) (kw : String) (s : Estado) : Prop :=
  match s.pcC with
  | PCCtrl.reporteAdquiere => s.pcH = PCHilo.fin
  | PCCtrl.reporteLee => s.pcH = PCHilo.fin
  | PCCtrl.reporteLibera r => s.pcH = PCHilo.fin ∧ r = cuentaTotal A kw
  | PCCtrl.fin r => s.pcH = PCHilo.fin ∧ r = cuentaTotal A kw
  | _ => True

/-- Invariante global del sistema. -/
def Inv (A : Option (List String)) (kw : String) (s : Estado) : Prop :=
  InvH A kw s ∧ InvSem s ∧ InvC A kw s

theorem inv_inicial (A : Option (List String)) (kw : String)
    (opciones : List String) : Inv A kw (inicial opciones) := by
  simp [Inv, InvH, InvSem, InvC, inicial, enCriticaH, enCriticaC]

theorem inv_paso {A : Option (List String)} {kw : String}
    {s s2 : Estado} {et : Etiqueta}
    (hinv : Inv A kw s) (hp : Paso A kw s et s2) : Inv A kw s2 := by
  obtain ⟨hH, ⟨hS1, hS2⟩, hC⟩ := hinv
  cases hp with
  | abreOk c f d pc ls hA =>
      cases pc <;>
        simp_all [Inv, InvH, InvSem, InvC, cuentaTotal, enCriticaH,
          enCriticaC]
  | abreFalla c f d pc hA =>
      cases pc <;>
        simp_all [Inv, InvH, InvSem, InvC, cuentaTotal, enCriticaH,
          enCriticaC]
  | escaneaLinea c f d pc l ls n =>
      rcases h : contiene kw l <;> cases pc <;>
        simp_all [Inv, InvH, InvSem, InvC, enCriticaH, enCriticaC,
          cuentaLineas_cons] <;> omega
  | escaneoFin c f d pc n =>
      cases pc <;>
        simp_all [Inv, InvH, InvSem, InvC, enCriticaH, enCriticaC,
          cuentaLineas_nil]
  | hAdquiere c f pc n =>
      cases pc <;>
        simp_all [Inv, InvH, InvSem, InvC, enCriticaH, enCriticaC]
  | hEscribe c f d pc n =>
      cases pc <;>
        simp_all [Inv, InvH, InvSem, InvC, enCriticaH, enCriticaC]
  | hLibera c f d pc =>
      cases pc <;>
        simp_all [Inv, InvH, InvSem, InvC, enCriticaH, enCriticaC]
  | hMarca c f d pc =>
      cases pc <;>
        simp_all [Inv, InvH, InvSem, InvC, enCriticaH, enCriticaC]
  | hFalloMarca c f d pc =>
      cases pc <;>
        simp_all [Inv, InvH, InvSem, InvC, cuentaTotal, enCriticaH,
          enCriticaC]
  | cHora c f d pcH ops =>
      exact ⟨hH, ⟨hS1, by simp_all [InvSem, enCriticaC]⟩,
        by simp [InvC]⟩
  | cMensaje c f d pcH ops =>
      exact ⟨hH, ⟨hS1, by simp_all [InvSem, enCriticaC]⟩,
        by simp [InvC]⟩
  | cSuma c f d pcH ops =>
      exact ⟨hH, ⟨hS1, by simp_all [InvSem, enCriticaC]⟩,
        by simp [InvC]⟩
  | cInvalida c f d pcH op ops hop =>
      exact ⟨hH, ⟨hS1, by simp_all [InvSem, enCriticaC]⟩,
        by simp [InvC]⟩
  | cEstadoEntra c f pcH ops =>
      exact ⟨hH, ⟨by simp_all [enCriticaH, enCriticaC],
        by simp [enCriticaC]⟩, by simp [InvC]⟩
  | cEstadoLee c f d pcH ops =>
      exact ⟨hH, ⟨hS1, by simp_all [enCriticaC]⟩, by simp [InvC]⟩
  | cEstadoSale c f d pcH ops =>
      exact ⟨hH, ⟨by simp_all [enCriticaH, enCriticaC],
        by simp [enCriticaC]⟩, by simp [InvC]⟩
  | cSalirListo c d pcH ops =>
      cases pcH <;>
        simp_all [Inv, InvH, InvSem, InvC, enCriticaH, enCriticaC]
  | cSalirEspera c d pcH ops =>
      exact ⟨hH, ⟨hS1, by simp_all [enCriticaC]⟩, by simp [InvC]⟩
  | cJoin c f d =>
      exact ⟨hH, ⟨hS1, by simp_all [enCriticaC]⟩, by simp [InvC]⟩
  | cReporteEntra c f pcH =>
      exact ⟨hH, ⟨by simp_all [enCriticaH, enCriticaC],
        by simp [enCriticaC]⟩, by simpa [InvC] using hC⟩
  | cReporteLee c f d pcH =>
      refine ⟨hH, ⟨hS1, by simp_all [enCriticaC]⟩, ?_⟩
      have hfin : pcH = PCHilo.fin := by simpa [InvC] using hC
      subst hfin
      have hc : c = cuentaTotal A kw := by
        simpa [InvH] using hH.1
      simp [InvC, hc]
  | cReporteSale c f d pcH r =>
      refine ⟨hH, ⟨by simp_all [enCriticaH, enCriticaC],
        by simp [enCriticaC]⟩, ?_⟩
      simpa [InvC] using hC

theorem inv_traza {A : Option (List String)} {kw : String}
    {s t : Estado} {ets : List Etiqueta}
    (ht : Traza A kw s ets t) (hinv : Inv A kw s) : Inv A kw t := by
  induction ht with
  | nada s => exact hinv
  | paso hp _ ih => exact ih (inv_paso hinv hp)

theorem inv_alcanzable {A : Option (List String)} {kw : String}
    {t : Estado} {ets : List Etiqueta} {opciones : List String}
    (ht : Traza A kw (inicial opciones) ets t) : Inv A kw t :=
  inv_traza ht (inv_inicial A kw opciones)

theorem congelado_paso {A : Option (List String)} {kw : String}
    {s s2 : Estado} {et : Etiqueta}
    (hinv : Inv A kw s) (hdone : s.hilo_terminado = true)
    (hp : Paso A kw s et s2) :
    s2.contador_errores = s.contador_errores ∧
    s2.hilo_terminado = true := by
  obtain ⟨hH, _, _⟩ := hinv
  cases hp <;> simp_all [InvH]

theorem congelado_traza {A : Option (List String)} {kw : String}
    {s t : Estado} {ets : List Etiqueta}
    (hinv : Inv A kw s) (hdone : s.hilo_terminado = true)
    (ht : Traza A kw s ets t) :
    t.contador_errores = s.contador_errores ∧
    t.hilo_terminado = true := by
  induction ht with
  | nada s => exact ⟨rfl, hdone⟩
  | paso hp _ ih =>
      obtain ⟨h1, h2⟩ := congelado_paso hinv hdone hp
      obtain ⟨h3, h4⟩ := ih (inv_paso hinv hp) h2
      exact ⟨h3.trans h1, h4⟩

/-- Numero de escrituras de contador_errores registradas en una
etiqueta. -/
def escriturasContador (et : Etiqueta) : Nat :=
  (et.obs.filter (fun o => o.var == Var.contador && o.escritura)).length

/-- Numero de escrituras de contador_errores registradas en una
ejecucion. -/
def numEscriturasContador (ets : List Etiqueta) : Nat :=
  (ets.map escriturasContador).sum

theorem faseH_le_uno (pc : PCHilo) : faseH pc ≤ 1 := by
  cases pc <;> simp [faseH]

theorem fase_paso {kw : String} {ls : List String} {s s2 : Estado}
    {et : Etiqueta}
    (hinv : Inv (some ls) kw s) (hp : Paso (some ls) kw s et s2) :
    faseH s2.pcH = faseH s.pcH + escriturasContador et := by
  obtain ⟨hH, _, _⟩ := hinv
  cases hp <;> simp_all [InvH, faseH, escriturasContador]

theorem fase_traza {kw : String} {ls : List String} {s t : Estado}
    {ets : List Etiqueta}
    (hinv : Inv (some ls) kw s) (ht : Traza (some ls) kw s ets t) :
    faseH t.pcH = faseH s.pcH + numEscriturasContador ets := by
  induction ht with
  | nada s => simp [numEscriturasContador]
  | paso hp _ ih =>
      rename_i s s2 s3 et ets
      have h1 := fase_paso hinv hp
      have h2 := ih (inv_paso hinv hp)
      simp [numEscriturasContador] at h2 ⊢
      omega

/-- Propiedad de disciplina de exclusion tal y como la enuncia la
especificacion: todo acceso (lectura o escritura) a contador_errores o a
hilo_terminado, por cualquiera de los dos hilos y en cualquier estado
alcanzable, ocurre con el semaforo en poder del hilo que accede. -/
def DisciplinaSemaforo (A : Option (List String)) (kw : String)
    (opciones : List String) : Prop :=
  ∀ ets s et s2, Traza A kw (inicial opciones) ets s →
    Paso A kw s et s2 → ∀ o ∈ et.obs, s.dueno = some et.quien

/-- C1: al terminar el hilo de escaneo, el contador compartido vale
exactamente el numero de lineas del fichero que contienen la palabra
clave como subcadena sensible a mayusculas; con fichero vacio el
recuento es 0 y sin ninguna linea con la palabra clave tambien es 0. -/
theorem c1_conteo_correcto (kw : String) (ls opciones : List String)
    (ets : List Etiqueta) (s : Estado)
    (ht : Traza (some ls) kw (inicial opciones) ets s)
    (hfin : s.pcH = PCHilo.fin) :
    s.contador_errores = cuentaLineas kw ls ∧
    cuentaLineas kw [] = 0 ∧
    ((∀ l ∈ ls, contiene kw l = false) → cuentaLineas kw ls = 0) := by
  have hinv := inv_alcanzable ht
  refine ⟨?_, cuentaLineas_nil kw, cuentaLineas_sin_palabra kw ls⟩
  obtain ⟨sc, sf, sd, spH, spC⟩ := s
  have hfin2 : spH = PCHilo.fin := hfin
  subst hfin2
  have hH := hinv.1
  simp [Inv, InvH, cuentaTotal] at hH
  exact hH.1

/-- C2, contraejemplo: la propiedad tal y como esta enunciada es falsa.
En el sistema con fichero vacio, palabra clave E y sin opciones, el hilo
secundario llega a marcaFin (linea 122) con el semaforo ya liberado, y
el paso que escribe hilo_terminado accede a la bandera sin poseer el
semaforo. -/
theorem c2_contraejemplo : ¬ DisciplinaSemaforo (some []) "E" [] := by
  intro h
  have ht : Traza (some []) "E" (inicial [])
      [⟨Quien.hilo, []⟩, ⟨Quien.hilo, []⟩, ⟨Quien.hilo, []⟩,
       ⟨Quien.hilo, [⟨Var.contador, true⟩]⟩, ⟨Quien.hilo, []⟩]
      ⟨0, false, none, PCHilo.marcaFin, PCCtrl.menu []⟩ := by
    refine Traza.paso (Paso.abreOk 0 false none (PCCtrl.menu []) [] rfl) ?_
    refine Traza.paso (Paso.escaneoFin 0 false none (PCCtrl.menu []) 0) ?_
    refine Traza.paso (Paso.hAdquiere 0 false (PCCtrl.menu []) 0) ?_
    refine Traza.paso
      (Paso.hEscribe 0 false (some Quien.hilo) (PCCtrl.menu []) 0) ?_
    exact Traza.paso (Paso.hLibera 0 false (some Quien.hilo) (PCCtrl.menu []))
      (Traza.nada _)
  have hp : Paso (some []) "E"
      ⟨0, false, none, PCHilo.marcaFin, PCCtrl.menu []⟩
      ⟨Quien.hilo, [⟨Var.bandera, true⟩]⟩
      ⟨0, true, none, PCHilo.fin, PCCtrl.menu []⟩ :=
    Paso.hMarca 0 false none (PCCtrl.menu [])
  have hbad := h _ _ _ _ ht hp ⟨Var.bandera, true⟩ (by simp)
  simp at hbad

/-- C2 enmendada: todo acceso a contador_errores ocurre con el semaforo
en poder del hilo que accede; los unicos accesos a hilo_terminado que
ocurren sin el semaforo son la escritura final del hilo secundario en el
finally (linea 122) y la lectura del hilo principal en la comprobacion
de salida (linea 248). -/
theorem c2_exclusion_enmendada {A : Option (List String)} {kw : String}
    {opciones : List String} {ets : List Etiqueta} {s s2 : Estado}
    {et : Etiqueta}
    (ht : Traza A kw (inicial opciones) ets s)
    (hp : Paso A kw s et s2) :
    (∀ o ∈ et.obs, o.var = Var.contador → s.dueno = some et.quien) ∧
    (∀ o ∈ et.obs, s.dueno ≠ some et.quien →
      (et.quien = Quien.hilo →
        s.pcH = PCHilo.marcaFin ∨ s.pcH = PCHilo.falloMarca) ∧
      (et.quien = Quien.principal →
        ∃ ops, s.pcC = PCCtrl.menu ("5" :: ops))) := by
  obtain ⟨hH, ⟨hS1, hS2⟩, hC⟩ := inv_alcanzable ht
  cases hp <;> simp_all [enCriticaH, enCriticaC]

/-- C3: cuando el usuario pide salir, el hilo principal solo llega a la
fase de informe final (y en particular al estado terminado) con el hilo
secundario ya terminado, y el valor del informe final es siempre el
total completo del escaneo, nunca un valor parcial. -/
theorem c3_salida_espera_al_hilo {A : Option (List String)} {kw : String}
    {opciones : List String} {ets : List Etiqueta} {s : Estado}
    (ht : Traza A kw (inicial opciones) ets s) :
    ((s.pcC = PCCtrl.reporteAdquiere ∨ s.pcC = PCCtrl.reporteLee ∨
      (∃ r, s.pcC = PCCtrl.reporteLibera r) ∨
      (∃ r, s.pcC = PCCtrl.fin r)) → s.pcH = PCHilo.fin) ∧
    (∀ r, s.pcC = PCCtrl.fin r →
      r = cuentaTotal A kw ∧ s.contador_errores = cuentaTotal A kw) := by
  obtain ⟨hH, _, hC⟩ := inv_alcanzable ht
  obtain ⟨sc, sf, sd, spH, spC⟩ := s
  cases spC <;> cases spH <;> simp_all [InvH, InvC]

/-- C4: con el fichero inaccesible (open falla), el contador compartido
queda en 0 en todo estado alcanzable, el hilo secundario al terminar
deja la bandera en True, todo informe final vale 0, y existe una
ejecucion completa en la que el hilo principal termina limpiamente con
informe 0. -/
theorem c4_fallo_no_propagado {kw : String} {opciones : List String}
    {ets : List Etiqueta} {s : Estado}
    (ht : Traza none kw (inicial opciones) ets s) :
    s.contador_errores = 0 ∧
    (s.pcH = PCHilo.fin → s.hilo_terminado = true) ∧
    (∀ r, s.pcC = PCCtrl.fin r → r = 0) ∧
    (∃ ets2 t, Traza none kw (inicial ["5"]) ets2 t ∧
      t.pcH = PCHilo.fin ∧ t.pcC = PCCtrl.fin 0 ∧
      t.hilo_terminado = true) := by
  obtain ⟨hH, _, hC⟩ := inv_alcanzable ht
  refine ⟨?_, ?_, ?_, ?_⟩
  · obtain ⟨sc, sf, sd, spH, spC⟩ := s
    cases spH <;> simp_all [InvH, cuentaTotal]
  · intro hfin
    obtain ⟨sc, sf, sd, spH, spC⟩ := s
    have hfin2 : spH = PCHilo.fin := hfin
    subst hfin2
    simpa [InvH] using hH.2
  · intro r hr
    obtain ⟨sc, sf, sd, spH, spC⟩ := s
    have hr2 : spC = PCCtrl.fin r := hr
    subst hr2
    simpa [InvC, cuentaTotal] using hC.2
  · refine ⟨[⟨Quien.hilo, []⟩, ⟨Quien.hilo, [⟨Var.bandera, true⟩]⟩,
      ⟨Quien.principal, [⟨Var.bandera, false⟩]⟩, ⟨Quien.principal, []⟩,
      ⟨Quien.principal, [⟨Var.contador, false⟩]⟩, ⟨Quien.principal, []⟩],
      ⟨0, true, none, PCHilo.fin, PCCtrl.fin 0⟩, ?_, rfl, rfl, rfl⟩
    refine Traza.paso (Paso.abreFalla 0 false none (PCCtrl.menu ["5"]) rfl) ?_
    refine Traza.paso (Paso.hFalloMarca 0 false none (PCCtrl.menu ["5"])) ?_
    refine Traza.paso (Paso.cSalirListo 0 none PCHilo.fin []) ?_
    refine Traza.paso (Paso.cReporteEntra 0 true PCHilo.fin) ?_
    refine Traza.paso
      (Paso.cReporteLee 0 true (some Quien.principal) PCHilo.fin) ?_
    exact Traza.paso
      (Paso.cReporteSale 0 true (some Quien.principal) PCHilo.fin 0)
      (Traza.nada _)

/-- C5: en cuanto hilo_terminado vale True en un estado alcanzable, el
contador compartido ya no cambia en ninguna continuacion de la
ejecucion y la bandera sigue en True: toda lectura posterior observa
exactamente la misma pareja (contador, bandera). -/
theorem c5_contador_congelado {A : Option (List String)} {kw : String}
    {opciones : List String} {ets ets2 : List Etiqueta} {s t : Estado}
    (ht : Traza A kw (inicial opciones) ets s)
    (hdone : s.hilo_terminado = true)
    (ht2 : Traza A kw s ets2 t) :
    t.contador_errores = s.contador_errores ∧
    t.hilo_terminado = true ∧
    s.contador_errores = cuentaTotal A kw := by
  have hinv := inv_alcanzable ht
  obtain ⟨h1, h2⟩ := congelado_traza hinv hdone ht2
  refine ⟨h1, h2, ?_⟩
  obtain ⟨hH, _, _⟩ := hinv
  obtain ⟨sc, sf, sd, spH, spC⟩ := s
  have hf : sf = true := hdone
  subst hf
  cases spH <;> simp_all [InvH, cuentaTotal]

/-- C6: hilo_terminado empieza en False, vale True exactamente cuando el
hilo secundario ha llegado a su fin (antes del par final de escrituras
siempre es False), y ningun paso lo devuelve a False: es monotona y su
transicion es de un solo sentido. -/
theorem c6_bandera_monotona {A : Option (List String)} {kw : String}
    {opciones : List String} {ets : List Etiqueta} {s s2 : Estado}
    {et : Etiqueta}
    (ht : Traza A kw (inicial opciones) ets s)
    (hp : Paso A kw s et s2) :
    (inicial opciones).hilo_terminado = false ∧
    (s.hilo_terminado = true ↔ s.pcH = PCHilo.fin) ∧
    (s2.hilo_terminado = true ↔ s2.pcH = PCHilo.fin) ∧
    (s.hilo_terminado = true → s2.hilo_terminado = true) := by
  have hinv := inv_alcanzable ht
  have hinv2 := inv_paso hinv hp
  have hiff : ∀ u : Estado, Inv A kw u →
      (u.hilo_terminado = true ↔ u.pcH = PCHilo.fin) := by
    intro u hu
    obtain ⟨uc, uf, ud, upH, upC⟩ := u
    cases upH <;> simp_all [Inv, InvH]
  refine ⟨rfl, hiff s hinv, hiff s2 hinv2, fun hdone => ?_⟩
  exact (congelado_paso hinv hdone hp).2

/-- C7: contador_errores empieza en 0; en todo estado alcanzable vale 0
o el total final (nunca un recuento intermedio, pues el recuento parcial
vive en contador_local); y el numero de escrituras del contador en una
ejecucion es la fase del hilo (0 antes de la linea 107, 1 despues): a lo
sumo una escritura, y exactamente una cuando el hilo llega a su fin. -/
theorem c7_escritura_unica {kw : String} {ls opciones : List String}
    {ets : List Etiqueta} {s : Estado}
    (ht : Traza (some ls) kw (inicial opciones) ets s) :
    (inicial opciones).contador_errores = 0 ∧
    (s.contador_errores = 0 ∨ s.contador_errores = cuentaLineas kw ls) ∧
    numEscriturasContador ets = faseH s.pcH ∧
    numEscriturasContador ets ≤ 1 ∧
    (s.pcH = PCHilo.fin → numEscriturasContador ets = 1) := by
  have hinv := inv_alcanzable ht
  have hfase := fase_traza (inv_inicial (some ls) kw opciones) ht
  simp [inicial, faseH] at hfase
  refine ⟨rfl, ?_, hfase.symm, ?_, ?_⟩
  · have hH := hinv.1
    obtain ⟨sc, sf, sd, spH, spC⟩ := s
    cases spH <;> simp_all [InvH, cuentaTotal]
  · rw [hfase.symm] at *
    exact hfase ▸ faseH_le_uno s.pcH
  · intro hfin
    rw [hfase.symm, hfin]

/-- C8: ante una opcion de menu no valida, el paso del hilo principal
avisa y vuelve al menu sin ningun cambio de estado: el contador, la
bandera, el semaforo y el hilo secundario quedan intactos y no se
realiza ningun acceso a las variables compartidas. -/
theorem c8_opcion_invalida {A : Option (List String)} {kw : String}
    {s s2 : Estado} {et : Etiqueta} {op : String} {ops : List String}
    (hmenu : s.pcC = PCCtrl.menu (op :: ops))
    (hop : opcionValida op = false)
    (hquien : et.quien = Quien.principal)
    (hp : Paso A kw s et s2) :
    s2.contador_errores = s.contador_errores ∧
    s2.hilo_terminado = s.hilo_terminado ∧
    s2.dueno = s.dueno ∧ s2.pcH = s.pcH ∧
    s2.pcC = PCCtrl.menu ops ∧ et.obs = [] := by
  cases hp <;> simp_all [opcionValida]

/-- C9: en todo estado alcanzable el semaforo pertenece a un hilo
exactamente cuando ese hilo esta dentro de una de sus secciones
criticas (delimitadas por acquire y release con finally); en particular
ni el hilo secundario terminado ni el hilo principal terminado retienen
el semaforo. -/
theorem c9_semaforo_liberado {A : Option (List String)} {kw : String}
    {opciones : List String} {ets : List Etiqueta} {s : Estado}
    (ht : Traza A kw (inicial opciones) ets s) :
    (s.dueno = some Quien.hilo ↔ enCriticaH s.pcH = true) ∧
    (s.dueno = some Quien.principal ↔ enCriticaC s.pcC = true) ∧
    (s.pcH = PCHilo.fin → s.dueno ≠ some Quien.hilo) ∧
    (∀ r, s.pcC = PCCtrl.fin r → s.dueno ≠ some Quien.principal) := by
  obtain ⟨_, ⟨hS1, hS2⟩, _⟩ := inv_alcanzable ht
  refine ⟨hS1, hS2, fun hfin => ?_, fun r hr => ?_⟩
  · simp [hS1, hfin, enCriticaH]
  · simp [hS2, hr, enCriticaC]

/-- C10: bajo el flujo real de main, el fichero generado por
generar_fichero_grande tiene exactamente num_lineas lineas terminadas en
salto de linea, y con ese fichero como entrada la rama de fallo del hilo
secundario (la rama except) es inalcanzable: el escaneo siempre
transcurre por la rama normal. -/
theorem c10_fallo_inalcanzable
    (eleccion : Nat → Fin mensajes_posibles.length)
    (num_lineas : Nat) (kw : String) (opciones : List String)
    {ets : List Etiqueta} {s : Estado}
    (ht : Traza (some (generar_fichero_grande eleccion num_lineas)) kw
      (inicial opciones) ets s) :
    (generar_fichero_grande eleccion num_lineas).length = num_lineas ∧
    (∀ l ∈ generar_fichero_grande eleccion num_lineas,
      ∃ p, l = p ++ "\x0a") ∧
    s.pcH ≠ PCHilo.falloMarca := by
  refine ⟨generar_longitud eleccion num_lineas,
    generar_termina_en_salto eleccion num_lineas, fun hfa => ?_⟩
  have hH := (inv_alcanzable ht).1
  obtain ⟨sc, sf, sd, spH, spC⟩ := s
  have hfa2 : spH = PCHilo.falloMarca := hfa
  subst hfa2
  simpa [InvH] using hH.1

theorem trazaHastaEscribe :
    Traza (some ["E", "a"]) "E" (inicial ["5"])
      [⟨Quien.hilo, []⟩, ⟨Quien.hilo, []⟩, ⟨Quien.hilo, []⟩,
       ⟨Quien.hilo, []⟩, ⟨Quien.hilo, []⟩]
      ⟨0, false, some Quien.hilo, PCHilo.escribe 1, PCCtrl.menu ["5"]⟩ := by
  refine Traza.paso
    (Paso.abreOk 0 false none (PCCtrl.menu ["5"]) ["E", "a"] rfl) ?_
  refine Traza.paso
    (Paso.escaneaLinea 0 false none (PCCtrl.menu ["5"]) "E" ["a"] 0) ?_
  refine Traza.paso
    (Paso.escaneaLinea 0 false none (PCCtrl.menu ["5"]) "a" [] _) ?_
  refine Traza.paso (Paso.escaneoFin 0 false none (PCCtrl.menu ["5"]) _) ?_
  exact Traza.paso (Paso.hAdquiere 0 false (PCCtrl.menu ["5"]) 1)
    (Traza.nada _)

theorem trazaHastaMarcaFin :
    Traza (some ["E", "a"]) "E" (inicial ["5"])
      [⟨Quien.hilo, []⟩, ⟨Quien.hilo, []⟩, ⟨Quien.hilo, []⟩,
       ⟨Quien.hilo, []⟩, ⟨Quien.hilo, []⟩,
       ⟨Quien.hilo, [⟨Var.contador, true⟩]⟩, ⟨Quien.hilo, []⟩]
      ⟨1, false, none, PCHilo.marcaFin, PCCtrl.menu ["5"]⟩ := by
  refine traza_trans trazaHastaEscribe ?_
  refine Traza.paso
    (Paso.hEscribe 0 false (some Quien.hilo) (PCCtrl.menu ["5"]) 1) ?_
  exact Traza.paso
    (Paso.hLibera 1 false (some Quien.hilo) (PCCtrl.menu ["5"]))
    (Traza.nada _)

theorem trazaExitoHilo :
    Traza (some ["E", "a"]) "E" (inicial ["5"])
      [⟨Quien.hilo, []⟩, ⟨Quien.hilo, []⟩, ⟨Quien.hilo, []⟩,
       ⟨Quien.hilo, []⟩, ⟨Quien.hilo, []⟩,
       ⟨Quien.hilo, [⟨Var.contador, true⟩]⟩, ⟨Quien.hilo, []⟩,
       ⟨Quien.hilo, [⟨Var.bandera, true⟩]⟩]
      ⟨1, true, none, PCHilo.fin, PCCtrl.menu ["5"]⟩ := by
  refine traza_trans trazaHastaMarcaFin ?_
  exact Traza.paso (Paso.hMarca 1 false none (PCCtrl.menu ["5"]))
    (Traza.nada _)

theorem trazaCtrlFinal :
    Traza (some ["E", "a"]) "E"
      ⟨1, true, none, PCHilo.fin, PCCtrl.menu ["5"]⟩
      [⟨Quien.principal, [⟨Var.bandera, false⟩]⟩, ⟨Quien.principal, []⟩,
       ⟨Quien.principal, [⟨Var.contador, false⟩]⟩, ⟨Quien.principal, []⟩]
      ⟨1, true, none, PCHilo.fin, PCCtrl.fin 1⟩ := by
  refine Traza.paso (Paso.cSalirListo 1 none PCHilo.fin []) ?_
  refine Traza.paso (Paso.cReporteEntra 1 true PCHilo.fin) ?_
  refine Traza.paso
    (Paso.cReporteLee 1 true (some Quien.principal) PCHilo.fin) ?_
  exact Traza.paso
    (Paso.cReporteSale 1 true (some Quien.principal) PCHilo.fin 1)
    (Traza.nada _)

theorem trazaExito :
    Traza (some ["E", "a"]) "E" (inicial ["5"])
      [⟨Quien.hilo, []⟩, ⟨Quien.hilo, []⟩, ⟨Quien.hilo, []⟩,
       ⟨Quien.hilo, []⟩, ⟨Quien.hilo, []⟩,
       ⟨Quien.hilo, [⟨Var.contador, true⟩]⟩, ⟨Quien.hilo, []⟩,
       ⟨Quien.hilo, [⟨Var.bandera, true⟩]⟩,
       ⟨Quien.principal, [⟨Var.bandera, false⟩]⟩, ⟨Quien.principal, []⟩,
       ⟨Quien.principal, [⟨Var.contador, false⟩]⟩, ⟨Quien.principal, []⟩]
      ⟨1, true, none, PCHilo.fin, PCCtrl.fin 1⟩ :=
  traza_trans trazaExitoHilo trazaCtrlFinal

theorem trazaFallo :
    Traza none "E" (inicial ["5"])
      [⟨Quien.hilo, []⟩, ⟨Quien.hilo, [⟨Var.bandera, true⟩]⟩,
       ⟨Quien.principal, [⟨Var.bandera, false⟩]⟩, ⟨Quien.principal, []⟩,
       ⟨Quien.principal, [⟨Var.contador, false⟩]⟩, ⟨Quien.principal, []⟩]
      ⟨0, true, none, PCHilo.fin, PCCtrl.fin 0⟩ := by
  refine Traza.paso (Paso.abreFalla 0 false none (PCCtrl.menu ["5"]) rfl) ?_
  refine Traza.paso (Paso.hFalloMarca 0 false none (PCCtrl.menu ["5"])) ?_
  refine Traza.paso (Paso.cSalirListo 0 none PCHilo.fin []) ?_
  refine Traza.paso (Paso.cReporteEntra 0 true PCHilo.fin) ?_
  refine Traza.paso
    (Paso.cReporteLee 0 true (some Quien.principal) PCHilo.fin) ?_
  exact Traza.paso
    (Paso.cReporteSale 0 true (some Quien.principal) PCHilo.fin 0)
    (Traza.nada _)

/-- Testigo de C1: en la ejecucion concreta con fichero [E, a] y palabra
clave E, al terminar el hilo el contador vale el recuento ingenuo. -/
theorem c1_testigo :
    (⟨1, true, none, PCHilo.fin, PCCtrl.menu ["5"]⟩ : Estado).contador_errores
        = cuentaLineas "E" ["E", "a"] ∧
    cuentaLineas "E" [] = 0 ∧
    ((∀ l ∈ ["E", "a"], contiene "E" l = false) →
      cuentaLineas "E" ["E", "a"] = 0) :=
  c1_conteo_correcto "E" ["E", "a"] ["5"] _ _ trazaExitoHilo rfl

/-- Testigo de C2 enmendada: el paso concreto que escribe el contador
(linea 107) se da con el semaforo en poder del hilo secundario. -/
theorem c2_testigo :
    (∀ o ∈ ([⟨Var.contador, true⟩] : List Obs), o.var = Var.contador →
      (⟨0, false, some Quien.hilo, PCHilo.escribe 1,
        PCCtrl.menu ["5"]⟩ : Estado).dueno = some Quien.hilo) ∧
    (∀ o ∈ ([⟨Var.contador, true⟩] : List Obs),
      (⟨0, false, some Quien.hilo, PCHilo.escribe 1,
        PCCtrl.menu ["5"]⟩ : Estado).dueno ≠ some Quien.hilo →
      (Quien.hilo = Quien.hilo →
        (⟨0, false, some Quien.hilo, PCHilo.escribe 1,
          PCCtrl.menu ["5"]⟩ : Estado).pcH = PCHilo.marcaFin ∨
        (⟨0, false, some Quien.hilo, PCHilo.escribe 1,
          PCCtrl.menu ["5"]⟩ : Estado).pcH = PCHilo.falloMarca) ∧
      (Quien.hilo = Quien.principal →
        ∃ ops, (⟨0, false, some Quien.hilo, PCHilo.escribe 1,
          PCCtrl.menu ["5"]⟩ : Estado).pcC = PCCtrl.menu ("5" :: ops))) :=
  c2_exclusion_enmendada trazaHastaEscribe
    (Paso.hEscribe 0 false (some Quien.hilo) (PCCtrl.menu ["5"]) 1)

/-- Testigo de C3: la ejecucion completa concreta acaba con el hilo
terminado y el informe final igual al total del escaneo. -/
theorem c3_testigo :
    (((⟨1, true, none, PCHilo.fin, PCCtrl.fin 1⟩ : Estado).pcC
          = PCCtrl.reporteAdquiere ∨
      (⟨1, true, none, PCHilo.fin, PCCtrl.fin 1⟩ : Estado).pcC
          = PCCtrl.reporteLee ∨
      (∃ r, (⟨1, true, none, PCHilo.fin, PCCtrl.fin 1⟩ : Estado).pcC
          = PCCtrl.reporteLibera r) ∨
      (∃ r, (⟨1, true, none, PCHilo.fin, PCCtrl.fin 1⟩ : Estado).pcC
          = PCCtrl.fin r)) →
      (⟨1, true, none, PCHilo.fin, PCCtrl.fin 1⟩ : Estado).pcH
          = PCHilo.fin) ∧
    (∀ r, (⟨1, true, none, PCHilo.fin, PCCtrl.fin 1⟩ : Estado).pcC
          = PCCtrl.fin r →
      r = cuentaTotal (some ["E", "a"]) "E" ∧
      (⟨1, true, none, PCHilo.fin, PCCtrl.fin 1⟩ : Estado).contador_errores
          = cuentaTotal (some ["E", "a"]) "E") :=
  c3_salida_espera_al_hilo trazaExito

/-- Testigo de C4: la ejecucion concreta con open fallido acaba con
bandera en True, contador 0 e informe final 0. -/
theorem c4_testigo :
    (⟨0, true, none, PCHilo.fin, PCCtrl.fin 0⟩ : Estado).contador_errores
        = 0 ∧
    ((⟨0, true, none, PCHilo.fin, PCCtrl.fin 0⟩ : Estado).pcH = PCHilo.fin →
      (⟨0, true, none, PCHilo.fin, PCCtrl.fin 0⟩ : Estado).hilo_terminado
        = true) ∧
    (∀ r, (⟨0, true, none, PCHilo.fin, PCCtrl.fin 0⟩ : Estado).pcC
        = PCCtrl.fin r → r = 0) ∧
    (∃ ets2 t, Traza none "E" (inicial ["5"]) ets2 t ∧
      t.pcH = PCHilo.fin ∧ t.pcC = PCCtrl.fin 0 ∧
      t.hilo_terminado = true) :=
  c4_fallo_no_propagado trazaFallo

/-- Testigo de C5: tras el estado concreto en que la bandera ya es True,
la continuacion hasta el final del programa no cambia el contador. -/
theorem c5_testigo :
    (⟨1, true, none, PCHilo.fin, PCCtrl.fin 1⟩ : Estado).contador_errores =
      (⟨1, true, none, PCHilo.fin, PCCtrl.menu ["5"]⟩
        : Estado).contador_errores ∧
    (⟨1, true, none, PCHilo.fin, PCCtrl.fin 1⟩ : Estado).hilo_terminado
        = true ∧
    (⟨1, true, none, PCHilo.fin, PCCtrl.menu ["5"]⟩
        : Estado).contador_errores = cuentaTotal (some ["E", "a"]) "E" :=
  c5_contador_congelado trazaExitoHilo rfl trazaCtrlFinal

/-- Testigo de C6: en el paso concreto de la linea 122 la bandera pasa
de False (hilo aun no terminado) a True (hilo terminado). -/
theorem c6_testigo :
    (inicial ["5"]).hilo_terminado = false ∧
    ((⟨1, false, none, PCHilo.marcaFin, PCCtrl.menu ["5"]⟩
        : Estado).hilo_terminado = true ↔
      (⟨1, false, none, PCHilo.marcaFin, PCCtrl.menu ["5"]⟩
        : Estado).pcH = PCHilo.fin) ∧
    ((⟨1, true, none, PCHilo.fin, PCCtrl.menu ["5"]⟩
        : Estado).hilo_terminado = true ↔
      (⟨1, true, none, PCHilo.fin, PCCtrl.menu ["5"]⟩
        : Estado).pcH = PCHilo.fin) ∧
    ((⟨1, false, none, PCHilo.marcaFin, PCCtrl.menu ["5"]⟩
        : Estado).hilo_terminado = true →
      (⟨1, true, none, PCHilo.fin, PCCtrl.menu ["5"]⟩
        : Estado).hilo_terminado = true) :=
  c6_bandera_monotona trazaHastaMarcaFin
    (Paso.hMarca 1 false none (PCCtrl.menu ["5"]))

/-- Testigo de C7: en la ejecucion concreta del hilo hasta su fin hay
exactamente una escritura del contador. -/
theorem c7_testigo :
    (inicial ["5"]).contador_errores = 0 ∧
    ((⟨1, true, none, PCHilo.fin, PCCtrl.menu ["5"]⟩
        : Estado).contador_errores = 0 ∨
      (⟨1, true, none, PCHilo.fin, PCCtrl.menu ["5"]⟩
        : Estado).contador_errores = cuentaLineas "E" ["E", "a"]) ∧
    numEscriturasContador
      [⟨Quien.hilo, []⟩, ⟨Quien.hilo, []⟩, ⟨Quien.hilo, []⟩,
       ⟨Quien.hilo, []⟩, ⟨Quien.hilo, []⟩,
       ⟨Quien.hilo, [⟨Var.contador, true⟩]⟩, ⟨Quien.hilo, []⟩,
       ⟨Quien.hilo, [⟨Var.bandera, true⟩]⟩] =
      faseH (⟨1, true, none, PCHilo.fin, PCCtrl.menu ["5"]⟩
        : Estado).pcH ∧
    numEscriturasContador
      [⟨Quien.hilo, []⟩, ⟨Quien.hilo, []⟩, ⟨Quien.hilo, []⟩,
       ⟨Quien.hilo, []⟩, ⟨Quien.hilo, []⟩,
       ⟨Quien.hilo, [⟨Var.contador, true⟩]⟩, ⟨Quien.hilo, []⟩,
       ⟨Quien.hilo, [⟨Var.bandera, true⟩]⟩] ≤ 1 ∧
    ((⟨1, true, none, PCHilo.fin, PCCtrl.menu ["5"]⟩ : Estado).pcH
        = PCHilo.fin →
      numEscriturasContador
        [⟨Quien.hilo, []⟩, ⟨Quien.hilo, []⟩, ⟨Quien.hilo, []⟩,
         ⟨Quien.hilo, []⟩, ⟨Quien.hilo, []⟩,
         ⟨Quien.hilo, [⟨Var.contador, true⟩]⟩, ⟨Quien.hilo, []⟩,
         ⟨Quien.hilo, [⟨Var.bandera, true⟩]⟩] = 1) :=
  c7_escritura_unica trazaExitoHilo

/-- Testigo de C8: la opcion 9 no es valida y el paso concreto del menu
la consume sin tocar nada mas. -/
theorem c8_testigo :
    (⟨0, false, none, PCHilo.inicio, PCCtrl.menu []⟩
        : Estado).contador_errores =
      (inicial ["9"]).contador_errores ∧
    (⟨0, false, none, PCHilo.inicio, PCCtrl.menu []⟩
        : Estado).hilo_terminado = (inicial ["9"]).hilo_terminado ∧
    (⟨0, false, none, PCHilo.inicio, PCCtrl.menu []⟩ : Estado).dueno
        = (inicial ["9"]).dueno ∧
    (⟨0, false, none, PCHilo.inicio, PCCtrl.menu []⟩ : Estado).pcH
        = (inicial ["9"]).pcH ∧
    (⟨0, false, none, PCHilo.inicio, PCCtrl.menu []⟩ : Estado).pcC
        = PCCtrl.menu [] ∧
    (⟨Quien.principal, []⟩ : Etiqueta).obs = [] :=
  c8_opcion_invalida rfl (by decide) rfl
    (@Paso.cInvalida (some ["E", "a"]) "E" 0 false none PCHilo.inicio "9" []
      (by decide))

/-- Testigo de C9: al final de la ejecucion concreta ningun hilo retiene
el semaforo. -/
theorem c9_testigo :
    ((⟨1, true, none, PCHilo.fin, PCCtrl.fin 1⟩ : Estado).dueno
        = some Quien.hilo ↔
      enCriticaH (⟨1, true, none, PCHilo.fin, PCCtrl.fin 1⟩
        : Estado).pcH = true) ∧
    ((⟨1, true, none, PCHilo.fin, PCCtrl.fin 1⟩ : Estado).dueno
        = some Quien.principal ↔
      enCriticaC (⟨1, true, none, PCHilo.fin, PCCtrl.fin 1⟩
        : Estado).pcC = true) ∧
    ((⟨1, true, none, PCHilo.fin, PCCtrl.fin 1⟩ : Estado).pcH
        = PCHilo.fin →
      (⟨1, true, none, PCHilo.fin, PCCtrl.fin 1⟩ : Estado).dueno
        ≠ some Quien.hilo) ∧
    (∀ r, (⟨1, true, none, PCHilo.fin, PCCtrl.fin 1⟩ : Estado).pcC
        = PCCtrl.fin r →
      (⟨1, true, none, PCHilo.fin, PCCtrl.fin 1⟩ : Estado).dueno
        ≠ some Quien.principal) :=
  c9_semaforo_liberado trazaExito

/-- Testigo de C10: con una eleccion concreta y una linea generada, el
fichero tiene una linea terminada en salto y el estado inicial no esta
en la rama de fallo. -/
theorem c10_testigo :
    (generar_fichero_grande
      (fun _ => (⟨0, by decide⟩ : Fin mensajes_posibles.length))
      1).length = 1 ∧
    (∀ l ∈ generar_fichero_grande
      (fun _ => (⟨0, by decide⟩ : Fin mensajes_posibles.length)) 1,
      ∃ p, l = p ++ "\x0a") ∧
    (inicial ["5"]).pcH ≠ PCHilo.falloMarca :=
  c10_fallo_inalcanzable
    (fun _ => (⟨0, by decide⟩ : Fin mensajes_posibles.length)) 1 "E" ["5"]
    (Traza.nada (inicial ["5"]))

end EjercicioPractico3
